import Mathlib

/-!
Verification development for the gardenwars-colyseus battle server.

This file gives a shallow embedding, in Lean 4, of the authoritative battle
logic of the repository: the per-player cost (resource) system
(`src/systems/ServerCostSystem.ts`), the edge-based combat simulator
(`src/systems/ServerCombatSystem.ts`), and the room orchestrator
(`src/rooms/BattleRoom.ts`).  JavaScript numbers are modelled as exact
rationals (`ℚ`); JS `Map`s are modelled as insertion-ordered association
lists (keys are unique in a `Map`, so "update the entry found by `get`" is
"update the first matching entry" of the list).  Message sends and
broadcasts are modelled as explicit output lists.  The unit catalog
(`allies.json`, loaded by `src/data/units.ts`) is injected master data and
is passed as an explicit parameter.
-/

namespace GardenWars

/-- Side of the lane a unit or player belongs to (`'player1' | 'player2'`). -/
inductive Side where
  | player1
  | player2
deriving DecidableEq

/-- Unit state machine states (`UnitState` in `src/data/types.ts`). -/
inductive UState where
  | SPAWN
  | WALK
  | ATTACK_WINDUP
  | ATTACK_COOLDOWN
  | HITSTUN
  | DIE
deriving DecidableEq

/-- Room phase (`phase` field of `BattleState`): `waiting | countdown | playing | finished`. -/
inductive Phase where
  | waiting
  | countdown
  | playing
  | finished
deriving DecidableEq

/-- Immutable unit master-data entry (`UnitDefinition` in `src/data/types.ts`;
`scale` is the optional field read via `(definition as any).scale` in
`ServerCombatSystem.spawnUnit`). -/
structure UnitDefinition where
  id : String
  rarity : String
  cost : ℚ
  maxHp : ℚ
  speed : ℚ
  attackDamage : ℚ
  attackRange : ℚ
  attackCooldownMs : ℚ
  attackWindupMs : ℚ
  spawnCooldownMs : Option ℚ
  knockback : ℚ
  isBoss : Bool
  scale : Option ℚ
deriving DecidableEq

/-- Live unit on the lane (`ServerUnit` in `src/data/types.ts`, plus the
`width` field the combat system stores on it). -/
structure ServerUnit where
  instanceId : String
  definitionId : String
  definition : UnitDefinition
  side : Side
  x : ℚ
  hp : ℚ
  maxHp : ℚ
  state : UState
  stateTimer : ℚ
  targetId : Option String
  damageAccumulated : ℚ
  width : ℚ
deriving DecidableEq

/-- Per-session player record (`PlayerSchema` in `src/schemas/BattleState.ts`). -/
structure PlayerSchema where
  odeyoId : String
  sessionId : String
  displayName : String
  cost : ℚ
  maxCost : ℚ
  costLevel : ℕ
  castleHp : ℚ
  maxCastleHp : ℚ
  ready : Bool
  deck : List String
deriving DecidableEq

/-- The room's replicated battle state (`BattleState` schema) folded together
with the combat system's internal `serverUnits` and `killCounts` maps (the
schema's `units` map mirrors `serverUnits` field-for-field every tick, so the
two are represented once). -/
structure GState where
  phase : Phase
  gameTime : ℚ
  countdown : ℤ
  stageLength : ℚ
  players : List (String × PlayerSchema)
  units : List ServerUnit
  winnerId : String
  winReason : String
  gameSpeed : ℚ
  speedVotes : List (String × Bool)
  killCounts : List (String × ℕ)
deriving DecidableEq

-- ============================================
-- Association-list helpers (JS Map semantics)
-- ============================================

/-- `Map.get`: first entry with the given key. -/
def lookupAssoc {α : Type} (l : List (String × α)) (k : String) : Option α :=
  match l with
  | [] => none
  | (k', v) :: rest => if k' = k then some v else lookupAssoc rest k

/-- `Map.set` on an existing key: replace the first entry with the given key;
append if absent. -/
def setAssoc {α : Type} (l : List (String × α)) (k : String) (v : α) : List (String × α) :=
  match l with
  | [] => [(k, v)]
  | (k', v') :: rest => if k' = k then (k, v) :: rest else (k', v') :: setAssoc rest k v

/-- `Map.delete`: remove the first entry with the given key. -/
def deleteAssoc {α : Type} (l : List (String × α)) (k : String) : List (String × α) :=
  match l with
  | [] => []
  | (k', v') :: rest => if k' = k then rest else (k', v') :: deleteAssoc rest k

/-- In-place mutation of the unit object returned by `serverUnits.get`:
replace the first unit with the given instance id. -/
def updateUnitInList (units : List ServerUnit) (id : String) (u' : ServerUnit) :
    List ServerUnit :=
  match units with
  | [] => []
  | u :: rest => if u.instanceId = id then u' :: rest else u :: updateUnitInList rest id u'

/-- `serverUnits.get(instanceId)`. -/
def lookupUnit (units : List ServerUnit) (id : String) : Option ServerUnit :=
  units.find? (fun u => u.instanceId = id)

-- ============================================
-- ServerCostSystem (src/systems/ServerCostSystem.ts)
-- ============================================

/-- `COST_CONFIG.maxLevels`. -/
def COST_maxLevels : List ℚ := [1000, 2500, 4500, 7000, 10000, 15000, 25000, 99999]

/-- `COST_CONFIG.upgradeCosts`. -/
def COST_upgradeCosts : List ℚ := [500, 1200, 2500, 4500, 8000, 12000, 20000]

/-- `COST_CONFIG.regenRates` (per second). -/
def COST_regenRates : List ℚ := [100, 150, 250, 400, 600, 900, 1500, 2500]

/-- `INITIAL_COST`. -/
def INITIAL_COST : ℚ := 200

namespace ServerCostSystem

/-- `ServerCostSystem.initialize(player)` (renamed: `initialize` is reserved in Lean). -/
def initPlayer (p : PlayerSchema) : PlayerSchema :=
  { p with cost := INITIAL_COST, maxCost := COST_maxLevels.getD 0 0, costLevel := 1 }

/-- `ServerCostSystem.update(player, deltaMs)`: regen, capped at `maxCost`.
`regenRates[levelIndex] ?? regenRates[0]`. -/
def update (p : PlayerSchema) (deltaMs : ℚ) : PlayerSchema :=
  let levelIndex := p.costLevel - 1
  let regenRate := (COST_regenRates.get? levelIndex).getD (COST_regenRates.getD 0 0)
  let regen := regenRate * (deltaMs / 1000)
  { p with cost := min (p.cost + regen) p.maxCost }

/-- `ServerCostSystem.spend(player, amount)`: returns the mutated player and
the boolean result. -/
def spend (p : PlayerSchema) (amount : ℚ) : PlayerSchema × Bool :=
  if p.cost ≥ amount then ({ p with cost := p.cost - amount }, true) else (p, false)

/-- `ServerCostSystem.canAfford(player, amount)`. -/
def canAfford (p : PlayerSchema) (amount : ℚ) : Bool :=
  p.cost ≥ amount

/-- `ServerCostSystem.upgradeMax(player)`: returns the mutated player and the
boolean result. -/
def upgradeMax (p : PlayerSchema) : PlayerSchema × Bool :=
  let levelIndex := p.costLevel - 1
  if levelIndex ≥ COST_maxLevels.length - 1 then (p, false)
  else
    match COST_upgradeCosts.get? levelIndex with
    | none => (p, false)
    | some upgradeCost =>
      if p.cost < upgradeCost then (p, false)
      else
        ({ p with
            cost := p.cost - upgradeCost,
            costLevel := p.costLevel + 1,
            maxCost := COST_maxLevels.getD p.costLevel 0 }, true)

/-- `ServerCostSystem.canUpgrade(player)`. -/
def canUpgrade (p : PlayerSchema) : Bool :=
  let levelIndex := p.costLevel - 1
  if levelIndex ≥ COST_maxLevels.length - 1 then false
  else
    match COST_upgradeCosts.get? levelIndex with
    | none => false
    | some upgradeCost => p.cost ≥ upgradeCost

end ServerCostSystem

/-- The per-player invariant of the cost system (spec §8, invariant 1):
`0 ≤ cost ≤ maxCost`, `1 ≤ costLevel ≤ 8`, `maxCost = maxLevels[costLevel−1]`. -/
def costInvariant (p : PlayerSchema) : Prop :=
  0 ≤ p.cost ∧ p.cost ≤ p.maxCost ∧ 1 ≤ p.costLevel ∧ p.costLevel ≤ 8 ∧
    p.maxCost = COST_maxLevels.getD (p.costLevel - 1) 0

instance (p : PlayerSchema) : Decidable (costInvariant p) := by
  unfold costInvariant
  infer_instance

-- ============================================
-- ServerCombatSystem (src/systems/ServerCombatSystem.ts)
-- ============================================

/-- `CASTLE_POSITIONS`. -/
def CASTLE_POSITIONS (s : Side) : ℚ :=
  match s with
  | .player1 => 80
  | .player2 => 1120

/-- `DEFAULT_UNIT_WIDTH`. -/
def DEFAULT_UNIT_WIDTH : ℚ := 60

/-- `UNIT_MIN_DISTANCE`. -/
def UNIT_MIN_DISTANCE : ℚ := 30

/-- The opposite side (`side === 'player1' ? 'player2' : 'player1'`). -/
def Side.enemy : Side → Side
  | .player1 => .player2
  | .player2 => .player1

/-- `getPlayerSide(sessionId)`: position of the session id in the players
map's insertion order (first = player1, second = player2). -/
def getPlayerSide (st : GState) (sessionId : String) : Option Side :=
  let playerIds := st.players.map Prod.fst
  match playerIds.indexOf? sessionId with
  | some 0 => some .player1
  | some 1 => some .player2
  | _ => none

/-- `getSessionIdBySide(side)`: the first (player1) or second (player2) key of
the players map. -/
def getSessionIdBySide (st : GState) (side : Side) : Option String :=
  (st.players.map Prod.fst).get? (if side = .player1 then 0 else 1)

/-- `getPlayerBySide(side)`: `players.get(playerIds[0|1])`.  Since `Map` keys
are unique, the entry found by `get` is the entry at that position. -/
def getPlayerBySide (st : GState) (side : Side) : Option PlayerSchema :=
  (st.players.get? (if side = .player1 then 0 else 1)).map Prod.snd

/-- `getKillCount(sessionId)` (`killCounts.get(sessionId) || 0`). -/
def getKillCount (st : GState) (sessionId : String) : ℕ :=
  (lookupAssoc st.killCounts sessionId).getD 0

/-- `setUnitState(unit, state)`: set the state and reset the state timer. -/
def setUnitState (u : ServerUnit) (s : UState) : ServerUnit :=
  { u with state := s, stateTimer := 0 }

/-- `getEdgeDistance(unitA, unitB)`: distance between the facing edges of the
two units. -/
def getEdgeDistance (a b : ServerUnit) : ℚ :=
  let halfWidthA := a.width / 2
  let halfWidthB := b.width / 2
  if a.x < b.x then (b.x - halfWidthB) - (a.x + halfWidthA)
  else (a.x - halfWidthA) - (b.x + halfWidthB)

/-- `isInRange(attacker, target)`: edge distance within the attacker's range. -/
def isInRange (attacker target : ServerUnit) : Bool :=
  getEdgeDistance attacker target ≤ attacker.definition.attackRange

/-- `isInRangeOfEnemyCastle(unit)`: the unit's forward edge within range of
the enemy castle position. -/
def isInRangeOfEnemyCastle (u : ServerUnit) : Bool :=
  let enemyCastleX := CASTLE_POSITIONS u.side.enemy
  let halfWidth := u.width / 2
  let edgeX := if u.side = .player1 then u.x + halfWidth else u.x - halfWidth
  |edgeX - enemyCastleX| ≤ u.definition.attackRange

/-- `isBlockedByEnemy(unit)`: some live enemy is in front of the unit with
edge distance below `(widthA + widthB)/2 × 0.5 + UNIT_MIN_DISTANCE`. -/
def isBlockedByEnemy (units : List ServerUnit) (u : ServerUnit) : Bool :=
  let enemySide := u.side.enemy
  let isMovingRight := u.side = .player1
  units.any fun enemy =>
    if enemy.side ≠ enemySide ∨ enemy.state = .DIE then false
    else
      let isInFront := if isMovingRight then enemy.x > u.x else enemy.x < u.x
      if ¬isInFront then false
      else
        let distanceToEdge := getEdgeDistance u enemy
        let minDistance := (u.width + enemy.width) / 2 * 0.5 + UNIT_MIN_DISTANCE
        distanceToEdge < minDistance

/-- The first guard of `handleWalk`: `target && isInRange(unit, target)` where
`target = unit.targetId ? serverUnits.get(unit.targetId) : null`.  Note the
code does not check the target's state here. -/
def walkTargetInRange (units : List ServerUnit) (u : ServerUnit) : Bool :=
  match u.targetId with
  | some tid =>
    match lookupUnit units tid with
    | some target => isInRange u target
    | none => false
  | none => false

/-- `handleWalk(unit, deltaMs)`: attack transitions, blocking, advance and
clamp.  Returns the mutated unit (the walk handler touches only the unit
itself). -/
def handleWalk (units : List ServerUnit) (stageLength : ℚ) (u : ServerUnit)
    (deltaMs : ℚ) : ServerUnit :=
  if walkTargetInRange units u then setUnitState u .ATTACK_WINDUP
  else if isInRangeOfEnemyCastle u then setUnitState u .ATTACK_WINDUP
  else if isBlockedByEnemy units u then u
  else
    let speed := u.definition.speed * (deltaMs / 1000)
    let direction : ℚ := if u.side = .player1 then 1 else -1
    let x1 := u.x + speed * direction
    let x2 := if u.side = .player1 then min x1 (stageLength - 30) else max x1 80
    { u with x := x2 }

/-- The body of `applyDamage` as a pure function of the mutated target unit:
subtract hp, accumulate damage, die at hp ≤ 0, otherwise resolve knockback
(threshold 15% of max hp, non-boss only) with the per-side clamp. -/
def applyDamageUnit (stageLength : ℚ) (t : ServerUnit) (damage knockback : ℚ) :
    ServerUnit :=
  let t1 := { t with hp := t.hp - damage, damageAccumulated := t.damageAccumulated + damage }
  if t1.hp ≤ 0 then setUnitState { t1 with hp := 0 } .DIE
  else
    let kbThreshold := t1.maxHp * 0.15
    if ¬t1.definition.isBoss ∧ t1.damageAccumulated ≥ kbThreshold then
      let t2 := { t1 with damageAccumulated := 0 }
      let knockbackDir : ℚ := if t2.side = .player1 then -1 else 1
      let t3 := { t2 with x := t2.x + knockback * knockbackDir }
      let t4 :=
        if t3.side = .player1 then { t3 with x := max t3.x 80 }
        else { t3 with x := min t3.x (stageLength - 30) }
      if t4.state ≠ .DIE then setUnitState t4 .HITSTUN else t4
    else t1

/-- `killCounts.set(sid, (killCounts.get(sid) || 0) + 1)`. -/
def bumpKill (killCounts : List (String × ℕ)) (sid : String) : List (String × ℕ) :=
  setAssoc killCounts sid ((lookupAssoc killCounts sid).getD 0 + 1)

/-- `applyDamage(target, damage, knockback, attackerSide)`: mutate the target
unit in the units map and, if it died, bump the attacker's kill counter. -/
def applyDamage (st : GState) (t : ServerUnit) (damage knockback : ℚ)
    (attackerSide : Side) : GState :=
  let t' := applyDamageUnit st.stageLength t damage knockback
  let units' := updateUnitInList st.units t.instanceId t'
  let died := t.hp - damage ≤ 0
  let killCounts' :=
    if died then
      match getSessionIdBySide st attackerSide with
      | some sid => bumpKill st.killCounts sid
      | none => st.killCounts
    else st.killCounts
  { st with units := units', killCounts := killCounts' }

/-- The castle-attack tail of `dealDamage`: damage the enemy player's castle
when in range, clamping at 0.  The enemy player entry is modified in place
(`List.set` at its position, matching mutation of the object `Map.get`
returned). -/
def castleAttack (st : GState) (attacker : ServerUnit) : GState :=
  let enemySide := attacker.side.enemy
  let idx := if enemySide = Side.player1 then 0 else 1
  match st.players.get? idx with
  | none => st
  | some (sid, p) =>
    if isInRangeOfEnemyCastle attacker then
      let newHp := p.castleHp - attacker.definition.attackDamage
      let newHp := if newHp < 0 then 0 else newHp
      { st with players := st.players.set idx (sid, { p with castleHp := newHp }) }
    else st

/-- `dealDamage(attacker)`: on windup completion, damage the live target if
any; otherwise attack the enemy castle if in range. -/
def dealDamage (st : GState) (attacker : ServerUnit) : GState :=
  let target :=
    match attacker.targetId with
    | some tid => lookupUnit st.units tid
    | none => none
  match target with
  | some t => if t.state ≠ .DIE then
      applyDamage st t attacker.definition.attackDamage attacker.definition.knockback
        attacker.side
    else castleAttack st attacker
  | none => castleAttack st attacker

/-- `checkWinCondition()`: in playing phase, a player whose castle hp reached
0 loses; player1's castle is checked first. -/
def checkWinCondition (st : GState) : GState :=
  if st.phase ≠ .playing then st
  else
    match st.players.get? 0, st.players.get? 1 with
    | some (_, player1), some (_, player2) =>
      if player1.castleHp ≤ 0 then
        { st with phase := .finished, winnerId := player2.sessionId,
                  winReason := "castle_destroyed" }
      else if player2.castleHp ≤ 0 then
        { st with phase := .finished, winnerId := player1.sessionId,
                  winReason := "castle_destroyed" }
      else st
    | _, _ => st

-- ============================================
-- Unit catalog (src/data/units.ts; data from allies.json, injected)
-- ============================================

/-- `getUnitDefinition(unitId)` over an injected catalog list (`allies`). -/
def getUnitDefinition (allies : List UnitDefinition) (unitId : String) :
    Option UnitDefinition :=
  allies.find? (fun d => d.id = unitId)

/-- `isValidUnit(unitId)`. -/
def isValidUnit (allies : List UnitDefinition) (unitId : String) : Bool :=
  (getUnitDefinition allies unitId).isSome

/-- `spawnUnit(player, unitId)`: validate the definition and side, then append
the fresh unit (state `SPAWN`, full hp, near the own castle).  The id built
from `Date.now()` and `Math.random()` is injected as `freshId`.  Returns the
new state with the instance id, or `none` on failure. -/
def spawnUnit (allies : List UnitDefinition) (st : GState) (player : PlayerSchema)
    (unitId freshId : String) : GState × Option String :=
  match getUnitDefinition allies unitId with
  | none => (st, none)
  | some definition =>
    match getPlayerSide st player.sessionId with
    | none => (st, none)
    | some side =>
      let spawnX :=
        if side = Side.player1 then CASTLE_POSITIONS .player1 + 50
        else CASTLE_POSITIONS .player2 - 50
      let scale := definition.scale.getD 1
      let unitWidth := DEFAULT_UNIT_WIDTH * scale
      let serverUnit : ServerUnit :=
        { instanceId := freshId
          definitionId := unitId
          definition := definition
          side := side
          x := spawnX
          hp := definition.maxHp
          maxHp := definition.maxHp
          state := .SPAWN
          stateTimer := 0
          targetId := none
          damageAccumulated := 0
          width := unitWidth }
      ({ st with units := st.units ++ [serverUnit] }, some freshId)

-- ============================================
-- BattleRoom (src/rooms/BattleRoom.ts)
-- ============================================

/-- `DEFAULT_SPAWN_COOLDOWNS` by rarity. -/
def DEFAULT_SPAWN_COOLDOWNS (rarity : String) : Option ℚ :=
  if rarity = "N" then some 2000
  else if rarity = "R" then some 4000
  else if rarity = "SR" then some 6000
  else if rarity = "SSR" then some 8000
  else if rarity = "UR" then some 10000
  else none

/-- `COUNTDOWN_SECONDS`. -/
def COUNTDOWN_SECONDS : ℤ := 3

/-- `CASTLE_HP`. -/
def CASTLE_HP : ℚ := 5000

/-- `STAGE_LENGTH`. -/
def STAGE_LENGTH : ℚ := 1200

/-- JS `a || b` for an optional string (undefined and the empty string are
falsy). -/
def jsOrS (a : Option String) (b : String) : String :=
  match a with
  | some s => if s = "" then b else s
  | none => b

/-- JS `a || b` for an optional number (undefined and 0 are falsy). -/
def jsOrQ (a : Option ℚ) (b : ℚ) : ℚ :=
  match a with
  | some q => if q = 0 then b else q
  | none => b

/-- Join options (`JoinOptions` interface). -/
structure JoinOptions where
  odeyoId : Option String
  displayName : Option String
  deck : Option (List String)
deriving DecidableEq

/-- Lobby metadata set via `setMetadata` (status, host name, host deck
preview, creation time). -/
structure RoomMetadata where
  status : String
  hostName : String
  hostDeckPreview : List String
  createdAt : ℚ
deriving DecidableEq

/-- Messages emitted by the room: `client.send("error", {code, ...})` to the
offending client, broadcasts, the `all_players` and `speed_update` replies to
a joining client, and `client.leave()` as a disconnect.  Human-readable
message texts and broadcast payload details not needed by the claims are
abstracted away. -/
inductive OutMsg where
  | errorTo (sessionId : String) (code : String)
  | phaseChange (phase : Phase)
  | countdownUpdate (n : ℤ)
  | unitSpawned (instanceId : String)
  | playerJoined (sessionId : String)
  | allPlayersTo (sessionId : String)
  | speedUpdate
  | unitsSync
  | playersSync
  | disconnect (sessionId : String)
deriving DecidableEq

/-- The room's full server-side state: the replicated `BattleState` plus the
room's private fields (`spawnCooldowns`, the running game loop interval, the
running countdown interval, the lock flag, and the lobby metadata). -/
structure RoomState where
  st : GState
  spawnCooldowns : List (String × List (String × ℚ))
  gameLoopRunning : Bool
  countdownActive : Bool
  locked : Bool
  metadata : RoomMetadata
deriving DecidableEq

/-- `sendError(client, code, message)`. -/
def sendError (sid code : String) : OutMsg :=
  OutMsg.errorTo sid code

/-- `recalculateGameSpeed()`: speed 2 only when two players are present and
every player's vote is `true`; broadcasts `speed_update`. -/
def recalculateGameSpeed (r : RoomState) : RoomState × List OutMsg :=
  let gameSpeed : ℚ :=
    if r.st.players.length < 2 then 1
    else if r.st.players.all (fun kp => lookupAssoc r.st.speedVotes kp.1 = some true)
      then 2 else 1
  ({ r with st := { r.st with gameSpeed := gameSpeed } }, [OutMsg.speedUpdate])

/-- `startGame()`: enter the playing phase, reset the game clock, update the
lobby metadata, broadcast the phase change and start the tick pump. -/
def startGame (r : RoomState) : RoomState × List OutMsg :=
  let r := { r with
    st := { r.st with phase := .playing, gameTime := 0 },
    metadata := { r.metadata with status := "playing" },
    gameLoopRunning := true }
  (r, [OutMsg.phaseChange .playing])

/-- `startCountdown()`: enter the countdown phase at `COUNTDOWN_SECONDS`,
broadcast the phase change and start the 1 Hz countdown interval. -/
def startCountdown (r : RoomState) : RoomState × List OutMsg :=
  let r := { r with
    st := { r.st with phase := .countdown, countdown := COUNTDOWN_SECONDS },
    countdownActive := true }
  (r, [OutMsg.phaseChange .countdown])

/-- One firing of the countdown interval registered by `startCountdown`:
decrement, broadcast `countdown_update`, and at 0 clear the interval and
start the game.  The interval exists iff `countdownActive` (note `onLeave`
never clears it). -/
def countdownFire (r : RoomState) : RoomState × List OutMsg :=
  if ¬r.countdownActive then (r, [])
  else
    let c := r.st.countdown - 1
    let r := { r with st := { r.st with countdown := c } }
    if c ≤ 0 then
      let r := { r with countdownActive := false }
      let (r', msgs) := startGame r
      (r', OutMsg.countdownUpdate c :: msgs)
    else (r, [OutMsg.countdownUpdate c])

/-- `handleReady(client)`: mark the sender ready; when both of two players in
the waiting phase are ready, start the countdown. -/
def handleReady (r : RoomState) (sid : String) : RoomState × List OutMsg :=
  match lookupAssoc r.st.players sid with
  | none => (r, [])
  | some player =>
    let players' := setAssoc r.st.players sid { player with ready := true }
    let r := { r with st := { r.st with players := players' } }
    let allReady := players'.all (fun kp => kp.2.ready)
    if allReady ∧ players'.length = 2 ∧ r.st.phase = .waiting then
      startCountdown r
    else (r, [])

/-- `handleSummon(client, message)`: validate phase, membership, catalog,
deck, spawn cooldown and cost; then spend, spawn, set the spawn cooldown and
broadcast `unit_spawned`.  The fresh instance id is injected as `freshId`. -/
def handleSummon (allies : List UnitDefinition) (r : RoomState) (sid : String)
    (unitId freshId : String) : RoomState × List OutMsg :=
  if r.st.phase ≠ .playing then (r, [sendError sid "GAME_NOT_PLAYING"])
  else
    match lookupAssoc r.st.players sid with
    | none => (r, [])
    | some player =>
      match getUnitDefinition allies unitId with
      | none => (r, [sendError sid "INVALID_UNIT"])
      | some definition =>
        if ¬player.deck.contains unitId then (r, [sendError sid "UNIT_NOT_IN_DECK"])
        else
          let cooldowns := lookupAssoc r.spawnCooldowns sid
          let onCooldown :=
            match cooldowns with
            | some cds => decide (((lookupAssoc cds unitId).getD 0) > 0)
            | none => false
          if onCooldown then (r, [sendError sid "COOLDOWN"])
          else if ¬ServerCostSystem.canAfford player definition.cost then
            (r, [sendError sid "INSUFFICIENT_COST"])
          else
            let player' := (ServerCostSystem.spend player definition.cost).1
            let st1 := { r.st with players := setAssoc r.st.players sid player' }
            let (st2, instanceId) := spawnUnit allies st1 player' unitId freshId
            match instanceId with
            | none => ({ r with st := st2 }, [sendError sid "SPAWN_FAILED"])
            | some iid =>
              let spawnCooldowns' :=
                match cooldowns with
                | some cds =>
                  let cooldownMs :=
                    jsOrQ definition.spawnCooldownMs
                      (jsOrQ (DEFAULT_SPAWN_COOLDOWNS definition.rarity) 3000)
                  setAssoc r.spawnCooldowns sid (setAssoc cds unitId cooldownMs)
                | none => r.spawnCooldowns
              let r' := { r with st := st2, spawnCooldowns := spawnCooldowns' }
              match lookupUnit st2.units iid with
              | some u => (r', [OutMsg.unitSpawned u.instanceId])
              | none => (r', [])

/-- `onJoin(client, options)`: reject (disconnect) when the room already has
two players; otherwise create the player with a validated deck, register it,
update lobby metadata for the first joiner, broadcast `player_joined`, reply
with `all_players` and `speed_update`, and lock the room at two players.
`Date.now()` is injected as `now`. -/
def onJoin (allies : List UnitDefinition) (r : RoomState) (sid : String)
    (options : JoinOptions) (now : ℚ) : RoomState × List OutMsg :=
  if r.st.players.length ≥ 2 then (r, [OutMsg.disconnect sid])
  else
    let receivedDeck := options.deck.getD []
    let validDeck := (receivedDeck.filter (fun id => isValidUnit allies id)).take 7
    let player : PlayerSchema :=
      { odeyoId := jsOrS options.odeyoId sid
        sessionId := sid
        displayName := jsOrS options.displayName
          ("Player " ++ toString (r.st.players.length + 1))
        cost := 200
        maxCost := 1000
        costLevel := 1
        castleHp := CASTLE_HP
        maxCastleHp := CASTLE_HP
        ready := false
        deck := validDeck }
    let player := ServerCostSystem.initPlayer player
    let st1 := { r.st with players := setAssoc r.st.players sid player,
                           speedVotes := setAssoc r.st.speedVotes sid false }
    let r1 := { r with st := st1,
                       spawnCooldowns := setAssoc r.spawnCooldowns sid [] }
    let (r2, speedMsgs) := recalculateGameSpeed r1
    let r3 :=
      if r2.st.players.length = 1 then
        let visibleCount := (validDeck.length + 1) / 2
        { r2 with metadata :=
          { status := "waiting", hostName := player.displayName,
            hostDeckPreview := validDeck.take visibleCount, createdAt := now } }
      else r2
    let msgs := speedMsgs ++
      [OutMsg.playerJoined sid, OutMsg.allPlayersTo sid, OutMsg.speedUpdate]
    let r4 := if r3.st.players.length = 2 then { r3 with locked := true } else r3
    (r4, msgs)

/-- `onLeave(client, consented)`: during countdown or playing, award the win
to the remaining player, finish the match and stop the game loop; in all
cases remove the player, their cooldowns and their speed vote, then
recalculate the game speed.  (The countdown interval is not cleared here.) -/
def onLeave (r : RoomState) (sid : String) : RoomState × List OutMsg :=
  let r1 :=
    if (r.st.phase = .playing ∨ r.st.phase = .countdown) ∧
        (lookupAssoc r.st.players sid).isSome then
      let winner := (r.st.players.filter (fun kp => kp.1 ≠ sid)).getLast?
      let st' :=
        match winner with
        | some (wsid, _) =>
          { r.st with winnerId := wsid, winReason := "opponent_disconnected" }
        | none => r.st
      { r with st := { st' with phase := .finished }, gameLoopRunning := false }
    else r
  let st2 := { r1.st with players := deleteAssoc r1.st.players sid,
                          speedVotes := deleteAssoc r1.st.speedVotes sid }
  let r2 := { r1 with st := st2,
                      spawnCooldowns := deleteAssoc r1.spawnCooldowns sid }
  recalculateGameSpeed r2

-- ============================================
-- Derived definitions and concrete fixtures
-- ============================================

/-- The remaining spawn cooldown `handleSummon` checks:
`(spawnCooldowns.get(sessionId)?.get(unitId)) || 0` (0 when the player has no
cooldown map). -/
def spawnCooldownRemaining (r : RoomState) (sid unitId : String) : ℚ :=
  match lookupAssoc r.spawnCooldowns sid with
  | some cds => (lookupAssoc cds unitId).getD 0
  | none => 0

/-- The first guard of `dealDamage`: the attacker's target, looked up in the
unit map, when it is not in state `DIE`. -/
def liveTargetOf (st : GState) (attacker : ServerUnit) : Option ServerUnit :=
  match attacker.targetId with
  | some tid =>
    match lookupUnit st.units tid with
    | some t => if t.state ≠ .DIE then some t else none
    | none => none
  | none => none

/-- The messages the room emits from "both players send ready in the waiting
phase" through the three firings of the countdown interval. -/
def readyCountdownTrace (r : RoomState) (sid1 sid2 : String) : List OutMsg :=
  let rm1 := handleReady r sid1
  let rm2 := handleReady rm1.1 sid2
  let rm3 := countdownFire rm2.1
  let rm4 := countdownFire rm3.1
  let rm5 := countdownFire rm4.1
  rm1.2 ++ rm2.2 ++ rm3.2 ++ rm4.2 ++ rm5.2

/-- The countdown value carried by a `countdown_update` broadcast. -/
def countdownValue (m : OutMsg) : Option ℤ :=
  match m with
  | .countdownUpdate n => some n
  | _ => none

/-- Modelled from the spec: the catalog data file `allies.json` imported by
`src/data/units.ts` is not part of the source tree; this entry is the
`unitA` of spec scenario S1 ({cost:100, maxHp:100, speed:200,
attackDamage:5000, attackRange:50, attackWindupMs:100, attackCooldownMs:500,
knockback:0, rarity:"N"}). -/
def cUnitA : UnitDefinition :=
  { id := "unitA", rarity := "N", cost := 100, maxHp := 100, speed := 200,
    attackDamage := 5000, attackRange := 50, attackCooldownMs := 500,
    attackWindupMs := 100, spawnCooldownMs := none, knockback := 0,
    isBoss := false, scale := none }

/-- A one-entry concrete catalog for witnesses. -/
def cAlliesA : List UnitDefinition := [cUnitA]

/-- A concrete player used to instantiate theorems with hypotheses: level 1,
cost 600 (enough for the level-1 upgrade), full castle. -/
def cPlayerA : PlayerSchema :=
  { odeyoId := "ext-a", sessionId := "sessA", displayName := "Alice",
    cost := 600, maxCost := 1000, costLevel := 1,
    castleHp := 5000, maxCastleHp := 5000, ready := false, deck := ["unitA"] }

/-- The second concrete player. -/
def cPlayerB : PlayerSchema :=
  { cPlayerA with odeyoId := "ext-b", sessionId := "sessB", displayName := "Bob" }

/-- A player who cannot afford `cUnitA` (cost 50 < 100). -/
def cPlayerPoor : PlayerSchema :=
  { cPlayerA with cost := 50 }

/-- A third player (used to exercise `spawnUnit` failure: their session id is
not among the first two keys of the players map). -/
def cPlayerC : PlayerSchema :=
  { cPlayerA with odeyoId := "ext-c", sessionId := "sessC", displayName := "Cara" }

/-- A two-player battle state in the waiting phase. -/
def cGStateW : GState :=
  { phase := .waiting, gameTime := 0, countdown := 3, stageLength := 1200,
    players := [("sessA", cPlayerA), ("sessB", cPlayerB)], units := [],
    winnerId := "", winReason := "", gameSpeed := 1,
    speedVotes := [("sessA", false), ("sessB", false)], killCounts := [] }

/-- Initial lobby metadata fixture. -/
def cMeta : RoomMetadata :=
  { status := "waiting", hostName := "Alice", hostDeckPreview := ["unitA"],
    createdAt := 0 }

/-- A two-player room in the waiting phase, neither player ready. -/
def cRoomW : RoomState :=
  { st := cGStateW, spawnCooldowns := [("sessA", []), ("sessB", [])],
    gameLoopRunning := false, countdownActive := false, locked := true,
    metadata := cMeta }

/-- A playing-phase state whose first player cannot afford `cUnitA`. -/
def cGStatePoor : GState :=
  { cGStateW with phase := .playing,
                  players := [("sessA", cPlayerPoor), ("sessB", cPlayerB)] }

/-- A two-player room in the playing phase whose first player cannot afford
`cUnitA`. -/
def cRoomPoor : RoomState :=
  { cRoomW with st := cGStatePoor }

/-- A playing-phase state whose players map holds three entries. -/
def cGState3 : GState :=
  { cGStateW with
      phase := .playing,
      players := [("sessA", cPlayerA), ("sessB", cPlayerB), ("sessC", cPlayerC)] }

/-- A room whose players map holds three entries (exercises the
`getPlayerSide = none` failure path of `spawnUnit` for the third session). -/
def cRoom3 : RoomState :=
  { cRoomW with
      st := cGState3,
      spawnCooldowns := [("sessA", []), ("sessB", []), ("sessC", [])] }

/-- A playing-phase state where both castles are already at 0 hp. -/
def cGStateBothDown : GState :=
  { cGStateW with
      phase := .playing,
      players := [("sessA", { cPlayerA with castleHp := 0 }),
                  ("sessB", { cPlayerB with castleHp := 0 })] }

/-- A dead (state `DIE`, still in the unit map) player2 unit at x = 340. -/
def cDeadTarget : ServerUnit :=
  { instanceId := "dead1", definitionId := "unitA", definition := cUnitA,
    side := .player2, x := 340, hp := 0, maxHp := 100, state := .DIE,
    stateTimer := 100, targetId := none, damageAccumulated := 0, width := 60 }

/-- A walking player1 unit at x = 300 whose target is the dead unit. -/
def cWalker : ServerUnit :=
  { instanceId := "walk1", definitionId := "unitA", definition := cUnitA,
    side := .player1, x := 300, hp := 100, maxHp := 100, state := .WALK,
    stateTimer := 50, targetId := some "dead1", damageAccumulated := 0,
    width := 60 }

/-- A sturdy non-boss player2 unit used for the knockback witness
(maxHp 1000, 80 damage already accumulated). -/
def cVictim : ServerUnit :=
  { instanceId := "vict1", definitionId := "unitA",
    definition := { cUnitA with maxHp := 1000 }, side := .player2, x := 600,
    hp := 1000, maxHp := 1000, state := .WALK, stateTimer := 0,
    targetId := none, damageAccumulated := 80, width := 60 }

/-- A player1 attacker at x = 300 targeting `tgt1`. -/
def cAttacker : ServerUnit :=
  { instanceId := "atk1", definitionId := "unitA", definition := cUnitA,
    side := .player1, x := 300, hp := 100, maxHp := 100,
    state := .ATTACK_WINDUP, stateTimer := 100, targetId := some "tgt1",
    damageAccumulated := 0, width := 60 }

/-- A live player2 unit at x = 340 with 100 hp, the attacker's target. -/
def cTarget : ServerUnit :=
  { instanceId := "tgt1", definitionId := "unitA", definition := cUnitA,
    side := .player2, x := 340, hp := 100, maxHp := 100, state := .WALK,
    stateTimer := 0, targetId := some "atk1", damageAccumulated := 0,
    width := 60 }

/-- A playing-phase state holding the attacker and its live target. -/
def cGStateCombat : GState :=
  { cGStateW with phase := .playing, units := [cAttacker, cTarget] }

-- ============================================
-- Helper lemmas: association lists
-- ============================================

lemma lookupAssoc_setAssoc_self {α : Type} (l : List (String × α)) (k : String)
    (v : α) : lookupAssoc (setAssoc l k v) k = some v := by
  induction l with
  | nil => simp [setAssoc, lookupAssoc]
  | cons hd tl ih =>
    obtain ⟨k', v'⟩ := hd
    by_cases h : k' = k
    · simp [setAssoc, lookupAssoc, h]
    · simp [setAssoc, lookupAssoc, h, ih]

lemma setAssoc_keys {α : Type} (l : List (String × α)) (k : String) (v : α)
    (h : (lookupAssoc l k).isSome) :
    (setAssoc l k v).map Prod.fst = l.map Prod.fst := by
  induction l with
  | nil => simp [lookupAssoc] at h
  | cons hd tl ih =>
    obtain ⟨k', v'⟩ := hd
    by_cases hk : k' = k
    · simp [setAssoc, hk]
    · simp only [lookupAssoc, if_neg hk] at h
      simp [setAssoc, hk, ih h]

-- ============================================
-- Helper lemmas: unit map updates and applyDamageUnit fields
-- ============================================

lemma lookupUnit_some_id (units : List ServerUnit) (id : String) (t : ServerUnit)
    (h : lookupUnit units id = some t) : t.instanceId = id := by
  have := List.find?_some h
  simpa using this

lemma lookupUnit_update (units : List ServerUnit) (id : String) (u' t : ServerUnit)
    (h : lookupUnit units id = some t) (hid : u'.instanceId = id) :
    lookupUnit (updateUnitInList units id u') id = some u' := by
  induction units with
  | nil => simp [lookupUnit] at h
  | cons u rest ih =>
    by_cases hu : u.instanceId = id
    · simp [updateUnitInList, hu, lookupUnit, List.find?_cons_of_pos, hid]
    · have h' : lookupUnit rest id = some t := by
        simpa [lookupUnit, List.find?_cons_of_neg, hu] using h
      simpa [updateUnitInList, hu, lookupUnit, List.find?_cons_of_neg] using ih h'

lemma applyDamageUnit_instanceId (sL : ℚ) (t : ServerUnit) (d k : ℚ) :
    (applyDamageUnit sL t d k).instanceId = t.instanceId := by
  unfold applyDamageUnit setUnitState
  try dsimp only
  repeat' split
  all_goals rfl

lemma applyDamageUnit_hp (sL : ℚ) (t : ServerUnit) (d k : ℚ) :
    (applyDamageUnit sL t d k).hp = if t.hp - d ≤ 0 then 0 else t.hp - d := by
  unfold applyDamageUnit setUnitState
  try dsimp only
  split
  · rfl
  · repeat' split
    all_goals rfl

lemma applyDamageUnit_state_die (sL : ℚ) (t : ServerUnit) (d k : ℚ)
    (h : t.hp - d ≤ 0) : (applyDamageUnit sL t d k).state = .DIE := by
  unfold applyDamageUnit setUnitState
  try dsimp only
  split
  · rfl
  · next hn => exact absurd h hn

-- ============================================
-- Helper lemmas: cost system invariant
-- ============================================

lemma costInv_initPlayer (p : PlayerSchema) :
    costInvariant (ServerCostSystem.initPlayer p) := by
  simp [costInvariant, ServerCostSystem.initPlayer, COST_maxLevels, INITIAL_COST]
  try norm_num

lemma regenRate_nonneg (i : ℕ) :
    0 ≤ (COST_regenRates.get? i).getD (COST_regenRates.getD 0 0) := by
  rcases h : COST_regenRates.get? i with _ | x
  · simp [COST_regenRates]
    try norm_num
  · have hx : x ∈ COST_regenRates := List.get?_mem h
    simp only [h, Option.getD_some]
    fin_cases hx <;> norm_num

lemma costInv_update (p : PlayerSchema) (deltaMs : ℚ) (hinv : costInvariant p)
    (hd : 0 ≤ deltaMs) : costInvariant (ServerCostSystem.update p deltaMs) := by
  obtain ⟨hc0, hcm, hl1, hl8, hmax⟩ := hinv
  have hr := regenRate_nonneg (p.costLevel - 1)
  have hmax0 : (0:ℚ) ≤ p.maxCost := le_trans hc0 hcm
  have hregen : 0 ≤ ((COST_regenRates.get? (p.costLevel - 1)).getD
      (COST_regenRates.getD 0 0)) * (deltaMs / 1000) := by
    apply mul_nonneg hr
    positivity
  refine ⟨?_, ?_, hl1, hl8, hmax⟩
  · exact le_min (add_nonneg hc0 hregen) hmax0
  · exact min_le_right _ _

lemma costInv_spend (p : PlayerSchema) (amount : ℚ) (hinv : costInvariant p)
    (ha : 0 ≤ amount) : costInvariant (ServerCostSystem.spend p amount).1 := by
  obtain ⟨hc0, hcm, hl1, hl8, hmax⟩ := hinv
  unfold ServerCostSystem.spend
  split
  · next h =>
    exact ⟨sub_nonneg.mpr h, le_trans (sub_le_self _ ha) hcm, hl1, hl8, hmax⟩
  · exact ⟨hc0, hcm, hl1, hl8, hmax⟩

lemma costInv_upgradeMax (p : PlayerSchema) (hinv : costInvariant p) :
    costInvariant (ServerCostSystem.upgradeMax p).1 := by
  obtain ⟨hc0, hcm, hl1, hl8, hmax⟩ := hinv
  unfold ServerCostSystem.upgradeMax
  dsimp only
  split
  · exact ⟨hc0, hcm, hl1, hl8, hmax⟩
  · next hlt =>
    have hl7 : p.costLevel ≤ 7 := by
      simp [COST_maxLevels] at hlt
      omega
    obtain ⟨l, hl⟩ : ∃ l, p.costLevel = l := ⟨p.costLevel, rfl⟩
    rw [hl] at hl1 hl7 hmax ⊢
    interval_cases l <;>
      · simp_all [COST_upgradeCosts, COST_maxLevels, costInvariant]
        split <;> simp_all
        all_goals linarith

lemma upgradeMax_success_eqs (p : PlayerSchema) (hinv : costInvariant p)
    (h : (ServerCostSystem.upgradeMax p).2 = true) :
    (ServerCostSystem.upgradeMax p).1.cost =
      p.cost - COST_upgradeCosts.getD (p.costLevel - 1) 0 ∧
    (ServerCostSystem.upgradeMax p).1.costLevel = p.costLevel + 1 ∧
    (ServerCostSystem.upgradeMax p).1.maxCost =
      COST_maxLevels.getD ((p.costLevel + 1) - 1) 0 := by
  obtain ⟨hc0, hcm, hl1, hl8, hmax⟩ := hinv
  unfold ServerCostSystem.upgradeMax at h ⊢
  dsimp only at h ⊢
  split at h
  · simp at h
  · next hlt =>
    have hl7 : p.costLevel ≤ 7 := by
      simp [COST_maxLevels] at hlt
      omega
    obtain ⟨l, hl⟩ : ∃ l, p.costLevel = l := ⟨p.costLevel, rfl⟩
    rw [hl] at hl1 hl7 h ⊢
    interval_cases l <;>
      · simp_all [COST_upgradeCosts, COST_maxLevels]
        split <;> simp_all

/-- Claim C7: every cost-system operation — `initialize`, `update` with any
Δms ≥ 0, `spend` with any amount ≥ 0, and `upgradeMax` — preserves the player
invariant 0 ≤ cost ≤ maxCost, 1 ≤ costLevel ≤ 8 and
maxCost = maxLevels[costLevel−1]; and a successful `upgradeMax` subtracts
`upgradeCosts[oldLevel−1]`, increments the level and sets
`maxCost = maxLevels[newLevel−1]`. -/
theorem costSystem_ops_preserve_invariant (p : PlayerSchema) (deltaMs amount : ℚ)
    (hinv : costInvariant p) (hd : 0 ≤ deltaMs) (ha : 0 ≤ amount) :
    costInvariant (ServerCostSystem.initPlayer p) ∧
    costInvariant (ServerCostSystem.update p deltaMs) ∧
    costInvariant (ServerCostSystem.spend p amount).1 ∧
    costInvariant (ServerCostSystem.upgradeMax p).1 ∧
    ((ServerCostSystem.upgradeMax p).2 = true →
      (ServerCostSystem.upgradeMax p).1.cost =
        p.cost - COST_upgradeCosts.getD (p.costLevel - 1) 0 ∧
      (ServerCostSystem.upgradeMax p).1.costLevel = p.costLevel + 1 ∧
      (ServerCostSystem.upgradeMax p).1.maxCost =
        COST_maxLevels.getD ((p.costLevel + 1) - 1) 0) :=
  ⟨costInv_initPlayer p, costInv_update p deltaMs hinv hd,
    costInv_spend p amount hinv ha, costInv_upgradeMax p hinv,
    fun h => upgradeMax_success_eqs p hinv h⟩

/-- Witness for C7: the invariant-preservation theorem applied to a concrete
level-1 player, Δms = 1000 and amount = 100. -/
theorem costSystem_ops_preserve_invariant_witness :
    costInvariant cPlayerA ∧ (0:ℚ) ≤ 1000 ∧ (0:ℚ) ≤ 100 ∧
    (costInvariant (ServerCostSystem.initPlayer cPlayerA) ∧
     costInvariant (ServerCostSystem.update cPlayerA 1000) ∧
     costInvariant (ServerCostSystem.spend cPlayerA 100).1 ∧
     costInvariant (ServerCostSystem.upgradeMax cPlayerA).1 ∧
     ((ServerCostSystem.upgradeMax cPlayerA).2 = true →
       (ServerCostSystem.upgradeMax cPlayerA).1.cost =
         cPlayerA.cost - COST_upgradeCosts.getD (cPlayerA.costLevel - 1) 0 ∧
       (ServerCostSystem.upgradeMax cPlayerA).1.costLevel = cPlayerA.costLevel + 1 ∧
       (ServerCostSystem.upgradeMax cPlayerA).1.maxCost =
         COST_maxLevels.getD ((cPlayerA.costLevel + 1) - 1) 0)) :=
  ⟨by decide, by norm_num, by norm_num,
    costSystem_ops_preserve_invariant cPlayerA 1000 100 (by decide) (by norm_num)
      (by norm_num)⟩

/-- Claim C9: when both castles are at hp ≤ 0 at the win check of a playing
tick, the player1-castle branch is evaluated first, so the room finishes with
winnerId = player2's sessionId and winReason "castle_destroyed". -/
theorem checkWin_both_castles_player2_wins (st : GState) (s1 s2 : String)
    (p1 p2 : PlayerSchema) (hphase : st.phase = .playing)
    (h0 : st.players[0]? = some (s1, p1)) (h1 : st.players[1]? = some (s2, p2))
    (hc1 : p1.castleHp ≤ 0) (hc2 : p2.castleHp ≤ 0) :
    (checkWinCondition st).phase = .finished ∧
    (checkWinCondition st).winnerId = p2.sessionId ∧
    (checkWinCondition st).winReason = "castle_destroyed" := by
  simp [checkWinCondition, hphase, h0, h1, if_pos hc1]

/-- Witness for C9: a concrete playing state with both castles at 0 finishes
with the second player's sessionId as winner. -/
theorem checkWin_both_castles_player2_wins_witness :
    cGStateBothDown.phase = .playing ∧
    cGStateBothDown.players[0]? = some ("sessA", { cPlayerA with castleHp := 0 }) ∧
    cGStateBothDown.players[1]? = some ("sessB", { cPlayerB with castleHp := 0 }) ∧
    ({ cPlayerA with castleHp := 0 } : PlayerSchema).castleHp ≤ 0 ∧
    ({ cPlayerB with castleHp := 0 } : PlayerSchema).castleHp ≤ 0 ∧
    ((checkWinCondition cGStateBothDown).phase = .finished ∧
     (checkWinCondition cGStateBothDown).winnerId =
       ({ cPlayerB with castleHp := 0 } : PlayerSchema).sessionId ∧
     (checkWinCondition cGStateBothDown).winReason = "castle_destroyed") :=
  ⟨rfl, by decide, by decide, by decide, by decide,
    checkWin_both_castles_player2_wins cGStateBothDown "sessA" "sessB"
      { cPlayerA with castleHp := 0 } { cPlayerB with castleHp := 0 }
      rfl (by decide) (by decide) (by decide) (by decide)⟩

/-- Claim C10: a join attempt on a room that already holds two players leaves
the entire room state (players, units, phase, metadata, cooldowns, lock)
unchanged and only disconnects the joining client. -/
theorem onJoin_full_room_rejects (allies : List UnitDefinition) (r : RoomState)
    (sid : String) (options : JoinOptions) (now : ℚ)
    (hfull : 2 ≤ r.st.players.length) :
    onJoin allies r sid options now = (r, [OutMsg.disconnect sid]) := by
  unfold onJoin
  rw [if_pos hfull]

/-- Witness for C10: joining the full two-player room changes nothing and
disconnects the joiner. -/
theorem onJoin_full_room_rejects_witness :
    2 ≤ cRoomW.st.players.length ∧
    onJoin cAlliesA cRoomW "sessC" { odeyoId := none, displayName := none, deck := none }
      0 = (cRoomW, [OutMsg.disconnect "sessC"]) :=
  ⟨by decide,
    onJoin_full_room_rejects cAlliesA cRoomW "sessC"
      { odeyoId := none, displayName := none, deck := none } 0 (by decide)⟩

/-- Claim C5: a playing-phase summon of a catalog unit that is in the
sender's deck and off spawn cooldown, but costs more than the player has,
leaves the whole room state unchanged (cost, cooldowns, units) and sends
exactly one INSUFFICIENT_COST error to the offending client. -/
theorem summon_insufficient_cost (allies : List UnitDefinition) (r : RoomState)
    (sid unitId freshId : String) (player : PlayerSchema) (d : UnitDefinition)
    (hphase : r.st.phase = .playing)
    (hplayer : lookupAssoc r.st.players sid = some player)
    (hdef : getUnitDefinition allies unitId = some d)
    (hdeck : player.deck.contains unitId = true)
    (hcd : spawnCooldownRemaining r sid unitId ≤ 0)
    (hcost : player.cost < d.cost) :
    handleSummon allies r sid unitId freshId =
      (r, [OutMsg.errorTo sid "INSUFFICIENT_COST"]) := by
  have hafford : ServerCostSystem.canAfford player d.cost = false := by
    simp only [ServerCostSystem.canAfford, decide_eq_false_iff_not, not_le]
    exact hcost
  unfold handleSummon
  rw [if_neg (by simp [hphase])]
  rw [hplayer, hdef]
  simp only [hdeck]
  rw [if_neg (by simp)]
  unfold spawnCooldownRemaining at hcd
  rcases hsc : lookupAssoc r.spawnCooldowns sid with _ | cds
  · rw [hsc] at hcd
    simp only [hsc]
    rw [if_neg (by simp)]
    rw [hafford]
    simp [sendError]
  · rw [hsc] at hcd
    simp only [hsc]
    rw [if_neg (by simp [not_lt.mpr hcd])]
    rw [hafford]
    simp [sendError]

/-- Witness for C5: the concrete poor player summoning `unitA` (cost 100,
player cost 50) receives exactly one INSUFFICIENT_COST error and nothing
changes. -/
theorem summon_insufficient_cost_witness :
    cRoomPoor.st.phase = .playing ∧
    lookupAssoc cRoomPoor.st.players "sessA" = some cPlayerPoor ∧
    getUnitDefinition cAlliesA "unitA" = some cUnitA ∧
    cPlayerPoor.deck.contains "unitA" = true ∧
    spawnCooldownRemaining cRoomPoor "sessA" "unitA" ≤ 0 ∧
    cPlayerPoor.cost < cUnitA.cost ∧
    handleSummon cAlliesA cRoomPoor "sessA" "unitA" "inst1" =
      (cRoomPoor, [OutMsg.errorTo "sessA" "INSUFFICIENT_COST"]) :=
  ⟨rfl, by decide, by decide, by decide, by decide, by decide,
    summon_insufficient_cost cAlliesA cRoomPoor "sessA" "unitA" "inst1"
      cPlayerPoor cUnitA rfl (by decide) (by decide) (by decide) (by decide)
      (by decide)⟩

/-- Counterexample for C4: a summon in a state where the spend succeeds and
`spawnUnit` then fails (the summoner's session id is not among the first two
player keys, so `getPlayerSide` is `none`).  The code emits SPAWN_FAILED but
the player's cost stays at the debited value — it is not restored to the
pre-spend value, refuting the claim. -/
theorem summon_refund_counterexample :
    ServerCostSystem.canAfford cPlayerC cUnitA.cost = true ∧
    (handleSummon cAlliesA cRoom3 "sessC" "unitA" "inst1").2 =
      [OutMsg.errorTo "sessC" "SPAWN_FAILED"] ∧
    (lookupAssoc (handleSummon cAlliesA cRoom3 "sessC" "unitA" "inst1").1.st.players
        "sessC").map PlayerSchema.cost = some (cPlayerC.cost - cUnitA.cost) ∧
    cPlayerC.cost - cUnitA.cost ≠ cPlayerC.cost :=
  ⟨by decide, by rfl, by rfl, by norm_num [cPlayerC, cPlayerA, cUnitA]⟩

/-- Claim C4 (amended): when the cost spend succeeds but the subsequent
`spawnUnit` call fails, the spend is NOT reverted — the player's cost remains
at its post-spend (debited) value — and exactly one SPAWN_FAILED error is
emitted to the client; no unit is added and no cooldown is set. -/
theorem summon_spawn_failure_no_refund (allies : List UnitDefinition)
    (r : RoomState) (sid unitId freshId : String) (player : PlayerSchema)
    (d : UnitDefinition) (hphase : r.st.phase = .playing)
    (hplayer : lookupAssoc r.st.players sid = some player)
    (hdef : getUnitDefinition allies unitId = some d)
    (hdeck : player.deck.contains unitId = true)
    (hcd : spawnCooldownRemaining r sid unitId ≤ 0)
    (hcost : d.cost ≤ player.cost)
    (hside : getPlayerSide r.st player.sessionId = none) :
    (handleSummon allies r sid unitId freshId).2 =
      [OutMsg.errorTo sid "SPAWN_FAILED"] ∧
    lookupAssoc (handleSummon allies r sid unitId freshId).1.st.players sid =
      some { player with cost := player.cost - d.cost } ∧
    (handleSummon allies r sid unitId freshId).1.st.units = r.st.units ∧
    (handleSummon allies r sid unitId freshId).1.spawnCooldowns =
      r.spawnCooldowns := by
  have hafford : ServerCostSystem.canAfford player d.cost = true := by
    simp only [ServerCostSystem.canAfford, decide_eq_true_eq, ge_iff_le]
    exact hcost
  have hspend : ServerCostSystem.spend player d.cost =
      ({ player with cost := player.cost - d.cost }, true) := by
    unfold ServerCostSystem.spend
    rw [if_pos hcost]
  have hkeys : (setAssoc r.st.players sid { player with cost := player.cost - d.cost }).map Prod.fst = r.st.players.map Prod.fst :=
    setAssoc_keys _ _ _ (by simp [hplayer])
  have hside' : getPlayerSide { r.st with players := setAssoc r.st.players sid { player with cost := player.cost - d.cost } } player.sessionId = none := by
    unfold getPlayerSide at hside ⊢
    simpa [hkeys] using hside
  have hspawn : spawnUnit allies { r.st with players := setAssoc r.st.players sid { player with cost := player.cost - d.cost } } { player with cost := player.cost - d.cost } unitId freshId = ({ r.st with players := setAssoc r.st.players sid { player with cost := player.cost - d.cost } }, none) := by
    unfold spawnUnit
    rw [hdef]
    simp only []
    rw [hside']
  unfold handleSummon
  rw [if_neg (by simp [hphase])]
  rw [hplayer, hdef]
  simp only [hdeck]
  rw [if_neg (by simp)]
  unfold spawnCooldownRemaining at hcd
  rcases hsc : lookupAssoc r.spawnCooldowns sid with _ | cds
  · rw [hsc] at hcd
    simp only [hsc]
    rw [if_neg (by simp)]
    rw [hafford]
    simp only [Bool.not_true, Bool.false_eq_true, if_false, hspend, hspawn]
    exact ⟨rfl, lookupAssoc_setAssoc_self _ _ _, rfl, rfl⟩
  · rw [hsc] at hcd
    simp only [hsc]
    rw [if_neg (by simp [not_lt.mpr hcd])]
    rw [hafford]
    simp only [Bool.not_true, Bool.false_eq_true, if_false, hspend, hspawn]
    exact ⟨rfl, lookupAssoc_setAssoc_self _ _ _, rfl, rfl⟩

/-- Witness for C4 (amended): the no-refund theorem applied to the concrete
three-player room. -/
theorem summon_spawn_failure_no_refund_witness :
    cRoom3.st.phase = .playing ∧
    lookupAssoc cRoom3.st.players "sessC" = some cPlayerC ∧
    getUnitDefinition cAlliesA "unitA" = some cUnitA ∧
    cPlayerC.deck.contains "unitA" = true ∧
    spawnCooldownRemaining cRoom3 "sessC" "unitA" ≤ 0 ∧
    cUnitA.cost ≤ cPlayerC.cost ∧
    getPlayerSide cRoom3.st cPlayerC.sessionId = none ∧
    ((handleSummon cAlliesA cRoom3 "sessC" "unitA" "inst2").2 =
       [OutMsg.errorTo "sessC" "SPAWN_FAILED"] ∧
     lookupAssoc (handleSummon cAlliesA cRoom3 "sessC" "unitA" "inst2").1.st.players
       "sessC" = some { cPlayerC with cost := cPlayerC.cost - cUnitA.cost } ∧
     (handleSummon cAlliesA cRoom3 "sessC" "unitA" "inst2").1.st.units =
       cRoom3.st.units ∧
     (handleSummon cAlliesA cRoom3 "sessC" "unitA" "inst2").1.spawnCooldowns =
       cRoom3.spawnCooldowns) :=
  ⟨rfl, by decide, by decide, by decide, by decide, by decide, by decide,
    summon_spawn_failure_no_refund cAlliesA cRoom3 "sessC" "unitA" "inst2"
      cPlayerC cUnitA rfl (by decide) (by decide) (by decide) (by decide)
      (by decide) (by decide)⟩

/-- Counterexample for C3: in the concrete two-player waiting room, the three
`countdown_update` broadcasts preceding the playing phase carry 2, 1, 0 — not
3, 2, 1 as claimed (the handler decrements before broadcasting). -/
theorem countdown_values_counterexample :
    (readyCountdownTrace cRoomW "sessA" "sessB").filterMap countdownValue =
      [2, 1, 0] ∧
    (readyCountdownTrace cRoomW "sessA" "sessB").filterMap countdownValue ≠
      [3, 2, 1] := by
  decide

/-- Claim C3 (amended): in a room where both players become ready in the
waiting phase, exactly three `countdown_update` events, carrying countdown
values 2, 1, 0 in that order, are broadcast before the `phase_change` event
with phase = playing: the full trace is `phase_change(countdown)`,
`countdown_update(2)`, `countdown_update(1)`, `countdown_update(0)`,
`phase_change(playing)`. -/
theorem readyCountdown_trace_events (r : RoomState) (s1 s2 : String)
    (p1 p2 : PlayerSchema) (hplayers : r.st.players = [(s1, p1), (s2, p2)])
    (hneq : s1 ≠ s2) (hphase : r.st.phase = .waiting) (hr2 : p2.ready = false) :
    readyCountdownTrace r s1 s2 =
      [OutMsg.phaseChange .countdown, OutMsg.countdownUpdate 2,
       OutMsg.countdownUpdate 1, OutMsg.countdownUpdate 0,
       OutMsg.phaseChange .playing] := by
  simp [readyCountdownTrace, handleReady, lookupAssoc, setAssoc, hplayers,
        hphase, hr2, hneq, startCountdown, countdownFire, startGame,
        COUNTDOWN_SECONDS]

/-- Witness for C3 (amended): the trace theorem applied to the concrete
waiting room. -/
theorem readyCountdown_trace_events_witness :
    cRoomW.st.players = [("sessA", cPlayerA), ("sessB", cPlayerB)] ∧
    "sessA" ≠ "sessB" ∧ cRoomW.st.phase = .waiting ∧ cPlayerB.ready = false ∧
    readyCountdownTrace cRoomW "sessA" "sessB" =
      [OutMsg.phaseChange .countdown, OutMsg.countdownUpdate 2,
       OutMsg.countdownUpdate 1, OutMsg.countdownUpdate 0,
       OutMsg.phaseChange .playing] :=
  ⟨rfl, by decide, rfl, rfl,
    readyCountdown_trace_events cRoomW "sessA" "sessB" cPlayerA cPlayerB rfl
      (by decide) rfl rfl⟩

/-- Claim C8 evaluated at the failing input: both players ready (countdown
starts at 3), the countdown interval fires once (countdown = 2), then player
"sessA" disconnects.  `onLeave` immediately finishes the match for "sessB"
with reason opponent_disconnected, stops the game loop and removes the
leaver — but it never clears the countdown interval, so two further firings
reach 0 and `startGame` puts the room back into the playing phase, violating
the claim's "the room never subsequently enters (or re-enters) playing". -/
theorem disconnect_during_countdown_reenters_playing :
    (let r1 := (handleReady cRoomW "sessA").1
     let r2 := (handleReady r1 "sessB").1
     let r3 := (countdownFire r2).1
     let r4 := (onLeave r3 "sessA").1
     let r5 := (countdownFire r4).1
     let r6 := (countdownFire r5).1
     r3.st.phase = .countdown ∧ r3.st.countdown = 2 ∧
     r4.st.phase = .finished ∧ r4.st.winnerId = "sessB" ∧
     r4.st.winReason = "opponent_disconnected" ∧
     lookupAssoc r4.st.players "sessA" = none ∧
     r4.gameLoopRunning = false ∧
     r4.countdownActive = true ∧
     r6.st.phase = .playing) := by
  decide

/-- Counterexample for C2: `handleWalk` transitions to ATTACK_WINDUP on a
target that is in the unit map but already in state DIE (the WALK handler,
unlike the ATTACK_COOLDOWN handler, never checks the target's state), even
though the enemy castle is out of range — the claim allows the transition
only for a live target. -/
theorem walk_attacks_dead_target_counterexample :
    cWalker.state = .WALK ∧
    cWalker.targetId = some "dead1" ∧
    (lookupUnit [cDeadTarget, cWalker] "dead1").map ServerUnit.state =
      some UState.DIE ∧
    isInRangeOfEnemyCastle cWalker = false ∧
    (handleWalk [cDeadTarget, cWalker] 1200 cWalker 50).state =
      .ATTACK_WINDUP := by
  refine ⟨rfl, rfl, rfl, ?_, ?_⟩
  · simp only [isInRangeOfEnemyCastle, cWalker, cUnitA, CASTLE_POSITIONS,
      Side.enemy, decide_eq_false_iff_not, not_le]
    norm_num
  · have h : walkTargetInRange [cDeadTarget, cWalker] cWalker = true := by
      simp only [walkTargetInRange, cWalker, cDeadTarget, lookupUnit,
        List.find?, isInRange, getEdgeDistance, cUnitA, decide_eq_true_eq]
      norm_num
    simp [handleWalk, h, setUnitState]

/-- Claim C2 (amended): a WALK unit transitions to ATTACK_WINDUP when its
targetId refers to a unit present in the unit map (in any state, including
DIE) that is in range; failing that, when the enemy castle is in range;
failing that, when blocked by an enemy in front it stays as it is; otherwise
x advances by speed × (Δms/1000) × direction (+1 for player1, −1 for
player2) and is clamped (player1: x ≤ stageLength − 30; player2: x ≥ 80). -/
theorem handleWalk_characterization (units : List ServerUnit) (sL : ℚ)
    (u : ServerUnit) (deltaMs : ℚ) (hu : u.state = .WALK) :
    (walkTargetInRange units u = true →
       (handleWalk units sL u deltaMs).state = .ATTACK_WINDUP ∧
       (handleWalk units sL u deltaMs).x = u.x) ∧
    (walkTargetInRange units u = false → isInRangeOfEnemyCastle u = true →
       (handleWalk units sL u deltaMs).state = .ATTACK_WINDUP ∧
       (handleWalk units sL u deltaMs).x = u.x) ∧
    (walkTargetInRange units u = false → isInRangeOfEnemyCastle u = false →
       isBlockedByEnemy units u = true →
       handleWalk units sL u deltaMs = u) ∧
    (walkTargetInRange units u = false → isInRangeOfEnemyCastle u = false →
       isBlockedByEnemy units u = false →
       (handleWalk units sL u deltaMs).state = .WALK ∧
       (handleWalk units sL u deltaMs).x =
         (if u.side = .player1
          then min (u.x + u.definition.speed * (deltaMs / 1000)) (sL - 30)
          else max (u.x - u.definition.speed * (deltaMs / 1000)) 80)) := by
  refine ⟨?_, ?_, ?_, ?_⟩
  · intro h1
    simp [handleWalk, h1, setUnitState]
  · intro h1 h2
    simp [handleWalk, h1, h2, setUnitState]
  · intro h1 h2 h3
    simp [handleWalk, h1, h2, h3]
  · intro h1 h2 h3
    have hx : u.x + u.definition.speed * (deltaMs / 1000) * (-1) =
        u.x - u.definition.speed * (deltaMs / 1000) := by ring
    rcases hs : u.side
    · simp [handleWalk, h1, h2, h3, hs, hu]
    · simp [handleWalk, h1, h2, h3, hs, hu, hx, sub_eq_add_neg]

/-- Witness for C2 (amended): the characterization applied to the concrete
walker with no other unit on the lane (its target id dangles, so it simply
advances and clamps). -/
theorem handleWalk_characterization_witness :
    cWalker.state = .WALK ∧
    ((walkTargetInRange [] cWalker = true →
       (handleWalk [] 1200 cWalker 50).state = .ATTACK_WINDUP ∧
       (handleWalk [] 1200 cWalker 50).x = cWalker.x) ∧
     (walkTargetInRange [] cWalker = false → isInRangeOfEnemyCastle cWalker = true →
       (handleWalk [] 1200 cWalker 50).state = .ATTACK_WINDUP ∧
       (handleWalk [] 1200 cWalker 50).x = cWalker.x) ∧
     (walkTargetInRange [] cWalker = false → isInRangeOfEnemyCastle cWalker = false →
       isBlockedByEnemy [] cWalker = true →
       handleWalk [] 1200 cWalker 50 = cWalker) ∧
     (walkTargetInRange [] cWalker = false → isInRangeOfEnemyCastle cWalker = false →
       isBlockedByEnemy [] cWalker = false →
       (handleWalk [] 1200 cWalker 50).state = .WALK ∧
       (handleWalk [] 1200 cWalker 50).x =
         (if cWalker.side = .player1
          then min (cWalker.x + cWalker.definition.speed * (50 / 1000)) (1200 - 30)
          else max (cWalker.x - cWalker.definition.speed * (50 / 1000)) 80))) :=
  ⟨rfl, handleWalk_characterization [] 1200 cWalker 50 rfl⟩

/-- Claim C6: for a damaged non-dead unit that survives the hit (lane-bounded
x, non-negative knockback, stage at least 110 long): knockback fires iff the
damage accumulated since the last reset (including this hit) reaches
maxHp × 0.15 and the unit is not a boss; when it fires, damageAccumulated
resets to 0, the unit is displaced by the attacker's knockback opposite its
facing (player1 target toward −x, player2 target toward +x), x stays within
the lane bounds 80 ≤ x ≤ stageLength − 30, and the unit enters HITSTUN; when
it does not fire, damageAccumulated grows by the damage and state and x are
untouched. -/
theorem applyDamage_knockback_iff (sL : ℚ) (t : ServerUnit) (damage knockback : ℚ)
    (hsurv : ¬(t.hp - damage ≤ 0)) (hx0 : 80 ≤ t.x) (hx1 : t.x ≤ sL - 30)
    (hkb : 0 ≤ knockback) (hsL : 110 ≤ sL) (hstate : t.state ≠ .DIE) :
    ((t.definition.isBoss = false ∧
        t.maxHp * 0.15 ≤ t.damageAccumulated + damage) →
      (applyDamageUnit sL t damage knockback).damageAccumulated = 0 ∧
      (applyDamageUnit sL t damage knockback).state = .HITSTUN ∧
      (applyDamageUnit sL t damage knockback).x =
        (if t.side = .player1 then max (t.x - knockback) 80
         else min (t.x + knockback) (sL - 30)) ∧
      80 ≤ (applyDamageUnit sL t damage knockback).x ∧
      (applyDamageUnit sL t damage knockback).x ≤ sL - 30) ∧
    ((t.definition.isBoss = true ∨
        t.damageAccumulated + damage < t.maxHp * 0.15) →
      (applyDamageUnit sL t damage knockback).damageAccumulated =
        t.damageAccumulated + damage ∧
      (applyDamageUnit sL t damage knockback).state = t.state ∧
      (applyDamageUnit sL t damage knockback).x = t.x) := by
  constructor
  · rintro ⟨hb, hacc⟩
    have hx1 : t.x + knockback * (-1 : ℚ) = t.x - knockback := by ring
    have hx2 : t.x + -knockback = t.x - knockback := by ring
    rcases hside : t.side
    · refine ⟨?_, ?_, ?_, ?_, ?_⟩
      · simp [applyDamageUnit, setUnitState, hsurv, hb, hacc, hside, hstate]
      · simp [applyDamageUnit, setUnitState, hsurv, hb, hacc, hside, hstate]
      · simp [applyDamageUnit, setUnitState, hsurv, hb, hacc, hside, hstate, hx1, hx2]
      · simp only [applyDamageUnit, setUnitState, hsurv, hb, hacc, hside]
        simp [hstate, le_max_right]
      · simp only [applyDamageUnit, setUnitState, hsurv, hb, hacc, hside]
        simp [hstate]
        constructor <;> linarith
    · refine ⟨?_, ?_, ?_, ?_, ?_⟩
      · simp [applyDamageUnit, setUnitState, hsurv, hb, hacc, hside, hstate]
      · simp [applyDamageUnit, setUnitState, hsurv, hb, hacc, hside, hstate]
      · simp [applyDamageUnit, setUnitState, hsurv, hb, hacc, hside, hstate]
      · simp only [applyDamageUnit, setUnitState, hsurv, hb, hacc, hside]
        simp [hstate]
        constructor <;> linarith
      · simp only [applyDamageUnit, setUnitState, hsurv, hb, hacc, hside]
        simp [hstate, min_le_right]
  · intro hmiss
    unfold applyDamageUnit
    try dsimp only
    rw [if_neg hsurv]
    rw [if_neg ?_]
    · exact ⟨rfl, rfl, rfl⟩
    · rintro ⟨hb, hacc⟩
      rcases hmiss with hboss | hlt
      · simp [hboss] at hb
      · try dsimp only at hacc
        linarith

/-- Witness for C6: the knockback-iff theorem applied to the concrete victim
(maxHp 1000, accumulated 80, hit for 80 with knockback 40 at x = 600 on a
1200 stage). -/
theorem applyDamage_knockback_iff_witness :
    ¬(cVictim.hp - 80 ≤ 0) ∧ 80 ≤ cVictim.x ∧ cVictim.x ≤ 1200 - 30 ∧
    (0:ℚ) ≤ 40 ∧ (110:ℚ) ≤ 1200 ∧ cVictim.state ≠ .DIE ∧
    (((cVictim.definition.isBoss = false ∧
        cVictim.maxHp * 0.15 ≤ cVictim.damageAccumulated + 80) →
      (applyDamageUnit 1200 cVictim 80 40).damageAccumulated = 0 ∧
      (applyDamageUnit 1200 cVictim 80 40).state = .HITSTUN ∧
      (applyDamageUnit 1200 cVictim 80 40).x =
        (if cVictim.side = .player1 then max (cVictim.x - 40) 80
         else min (cVictim.x + 40) (1200 - 30)) ∧
      80 ≤ (applyDamageUnit 1200 cVictim 80 40).x ∧
      (applyDamageUnit 1200 cVictim 80 40).x ≤ 1200 - 30) ∧
     ((cVictim.definition.isBoss = true ∨
        cVictim.damageAccumulated + 80 < cVictim.maxHp * 0.15) →
      (applyDamageUnit 1200 cVictim 80 40).damageAccumulated =
        cVictim.damageAccumulated + 80 ∧
      (applyDamageUnit 1200 cVictim 80 40).state = cVictim.state ∧
      (applyDamageUnit 1200 cVictim 80 40).x = cVictim.x)) :=
  ⟨by norm_num [cVictim], by norm_num [cVictim], by norm_num [cVictim],
    by norm_num, by norm_num, by decide,
    applyDamage_knockback_iff 1200 cVictim 80 40 (by norm_num [cVictim])
      (by norm_num [cVictim]) (by norm_num [cVictim]) (by norm_num)
      (by norm_num) (by decide)⟩

/-- Claim C1: when a windup completes, `dealDamage` either (a) damages the
live target — hp reduced by attackDamage and clamped at 0, with a DIE
transition and a kill-counter bump for the attacker's session when hp
reaches 0 — leaving every player's castleHp untouched; or (b), with no live
target, damages the enemy castle (clamped at 0) when in range, leaving the
other castle, all units and all kill counts untouched; or (c) changes
nothing.  A unit and a castle are never both damaged in one completion. -/
theorem dealDamage_cases (st : GState) (attacker : ServerUnit)
    (h2 : st.players.length = 2) :
    (∀ t, liveTargetOf st attacker = some t →
       (dealDamage st attacker).players = st.players ∧
       (lookupUnit (dealDamage st attacker).units t.instanceId).map ServerUnit.hp =
         some (if t.hp - attacker.definition.attackDamage ≤ 0 then 0
               else t.hp - attacker.definition.attackDamage) ∧
       (t.hp - attacker.definition.attackDamage ≤ 0 →
          (lookupUnit (dealDamage st attacker).units t.instanceId).map
              ServerUnit.state = some UState.DIE ∧
          ∃ sid, getSessionIdBySide st attacker.side = some sid ∧
            getKillCount (dealDamage st attacker) sid =
              getKillCount st sid + 1)) ∧
    (liveTargetOf st attacker = none →
       (dealDamage st attacker).units = st.units ∧
       (dealDamage st attacker).killCounts = st.killCounts ∧
       (isInRangeOfEnemyCastle attacker = true →
          ∃ esid ep,
            st.players.get? (if attacker.side.enemy = Side.player1 then 0 else 1) =
              some (esid, ep) ∧
            (dealDamage st attacker).players.get?
                (if attacker.side.enemy = Side.player1 then 0 else 1) =
              some (esid, { ep with castleHp :=
                if ep.castleHp - attacker.definition.attackDamage < 0 then 0
                else ep.castleHp - attacker.definition.attackDamage }) ∧
            (dealDamage st attacker).players.get?
                (if attacker.side.enemy = Side.player1 then 1 else 0) =
              st.players.get? (if attacker.side.enemy = Side.player1 then 1 else 0)) ∧
       (isInRangeOfEnemyCastle attacker = false → dealDamage st attacker = st)) := by
  constructor
  · intro t ht
    obtain ⟨tid, htid⟩ : ∃ tid, attacker.targetId = some tid := by
      rcases h : attacker.targetId with _ | tid
      · unfold liveTargetOf at ht
        rw [h] at ht
        simp at ht
      · exact ⟨tid, rfl⟩
    obtain ⟨hlu, hdie⟩ : lookupUnit st.units tid = some t ∧ t.state ≠ UState.DIE := by
      unfold liveTargetOf at ht
      simp only [htid] at ht
      rcases h : lookupUnit st.units tid with _ | t0
      · simp only [h] at ht
        simp at ht
      · simp only [h] at ht
        by_cases hd : t0.state = UState.DIE
        · rw [if_neg (by simp [hd])] at ht
          simp at ht
        · rw [if_pos hd] at ht
          obtain rfl : t0 = t := by injection ht
          exact ⟨rfl, hd⟩
    have hid : t.instanceId = tid := lookupUnit_some_id _ _ _ hlu
    have hdd : dealDamage st attacker =
        applyDamage st t attacker.definition.attackDamage
          attacker.definition.knockback attacker.side := by
      simp only [dealDamage, htid, hlu]
      rw [if_pos hdie]
    have hup : lookupUnit (applyDamage st t attacker.definition.attackDamage
          attacker.definition.knockback attacker.side).units t.instanceId =
        some (applyDamageUnit st.stageLength t attacker.definition.attackDamage
          attacker.definition.knockback) := by
      simp only [applyDamage]
      exact lookupUnit_update _ _ _ t (by rw [hid]; exact hlu)
        (by rw [applyDamageUnit_instanceId])
    rw [hdd]
    refine ⟨by simp [applyDamage], ?_, ?_⟩
    · rw [hup]
      simp [applyDamageUnit_hp]
    · intro hle
      constructor
      · rw [hup]
        simp [applyDamageUnit_state_die _ _ _ _ hle]
      · obtain ⟨sid, hsid⟩ : ∃ sid, getSessionIdBySide st attacker.side = some sid := by
          have hlen : (st.players.map Prod.fst).length = 2 := by simp [h2]
          have hlt : (if attacker.side = Side.player1 then 0 else 1) <
              (st.players.map Prod.fst).length := by
            rw [hlen]
            split <;> norm_num
          exact ⟨_, List.get?_eq_get hlt⟩
        refine ⟨sid, hsid, ?_⟩
        simp only [applyDamage, hsid]
        rw [if_pos hle]
        simp [getKillCount, bumpKill, lookupAssoc_setAssoc_self]
  · intro hn
    have hdd : dealDamage st attacker = castleAttack st attacker := by
      unfold liveTargetOf at hn
      rcases htid : attacker.targetId with _ | tid
      · simp only [dealDamage, htid]
      · simp only [htid] at hn
        rcases hlu : lookupUnit st.units tid with _ | t0
        · simp only [dealDamage, htid, hlu]
        · simp only [hlu] at hn
          have hd : t0.state = UState.DIE := by
            by_contra hc
            rw [if_pos hc] at hn
            simp at hn
          simp only [dealDamage, htid, hlu]
          rw [if_neg (by simp [hd])]
    rw [hdd]
    have hlt0 : (if attacker.side.enemy = Side.player1 then 0 else 1) <
        st.players.length := by
      rw [h2]
      split <;> norm_num
    obtain ⟨⟨esid, ep⟩, hep⟩ : ∃ x, st.players.get?
        (if attacker.side.enemy = Side.player1 then 0 else 1) = some x :=
      ⟨_, List.get?_eq_get hlt0⟩
    simp only [castleAttack]
    simp only [hep]
    rcases hir : isInRangeOfEnemyCastle attacker
    · rw [if_neg (by simp)]
      refine ⟨rfl, rfl, ?_, fun _ => rfl⟩
      intro hh
      simp at hh
    · rw [if_pos rfl]
      refine ⟨rfl, rfl, ?_, ?_⟩
      · intro _
        refine ⟨esid, ep, rfl, ?_, ?_⟩
        · exact List.get?_set_eq_of_lt _ hlt0
        · apply List.get?_set_ne
          split <;> norm_num
      · intro hh
        simp at hh

/-- Witness for C1: the damage-resolution theorem applied to a concrete
playing state where a player1 attacker has a live player2 target. -/
theorem dealDamage_cases_witness :
    cGStateCombat.players.length = 2 ∧
    ((∀ t, liveTargetOf cGStateCombat cAttacker = some t →
       (dealDamage cGStateCombat cAttacker).players = cGStateCombat.players ∧
       (lookupUnit (dealDamage cGStateCombat cAttacker).units t.instanceId).map
           ServerUnit.hp =
         some (if t.hp - cAttacker.definition.attackDamage ≤ 0 then 0
               else t.hp - cAttacker.definition.attackDamage) ∧
       (t.hp - cAttacker.definition.attackDamage ≤ 0 →
          (lookupUnit (dealDamage cGStateCombat cAttacker).units t.instanceId).map
              ServerUnit.state = some UState.DIE ∧
          ∃ sid, getSessionIdBySide cGStateCombat cAttacker.side = some sid ∧
            getKillCount (dealDamage cGStateCombat cAttacker) sid =
              getKillCount cGStateCombat sid + 1)) ∧
     (liveTargetOf cGStateCombat cAttacker = none →
       (dealDamage cGStateCombat cAttacker).units = cGStateCombat.units ∧
       (dealDamage cGStateCombat cAttacker).killCounts = cGStateCombat.killCounts ∧
       (isInRangeOfEnemyCastle cAttacker = true →
          ∃ esid ep,
            cGStateCombat.players.get?
                (if cAttacker.side.enemy = Side.player1 then 0 else 1) =
              some (esid, ep) ∧
            (dealDamage cGStateCombat cAttacker).players.get?
                (if cAttacker.side.enemy = Side.player1 then 0 else 1) =
              some (esid, { ep with castleHp :=
                if ep.castleHp - cAttacker.definition.attackDamage < 0 then 0
                else ep.castleHp - cAttacker.definition.attackDamage }) ∧
            (dealDamage cGStateCombat cAttacker).players.get?
                (if cAttacker.side.enemy = Side.player1 then 1 else 0) =
              cGStateCombat.players.get?
                (if cAttacker.side.enemy = Side.player1 then 1 else 0)) ∧
       (isInRangeOfEnemyCastle cAttacker = false →
          dealDamage cGStateCombat cAttacker = cGStateCombat))) :=
  ⟨rfl, dealDamage_cases cGStateCombat cAttacker rfl⟩

end GardenWars
